import Mathlib

/-!
Verification model of the rust-sysfs-led crate.

Definitions are shallow embeddings of the Rust source:
  - src/colors.rs   : Color, Color.from_rgb, Color.from_hsv, Color.from_hsl
  - src/lib.rs      : Brightness, Brightness.to_absolute, Brightness.to_percent,
                      SysfsLed file access, set_brightness, SysfsRgbLed color
  - src/triggers.rs : TriggerNone for SysfsRgbLed (rgb_none)

Machine integers are modelled as Nat with explicit truncation where the
source can truncate: u8 casts become % 256, u16/u8 saturating operations
become explicit min/truncated subtraction, u32 saturating_mul becomes
min with U32_MAX.  Fallible operations return Except or Option; a Rust
panic (division by zero) is modelled as Option.none.
-/

namespace RustSysfsLed

/-- `Color(u8, u8, u8)` from src/colors.rs, a tuple struct of the three
channel values.  Channel values are Nats that stay below 256. -/
structure Color where
  c0 : Nat
  c1 : Nat
  c2 : Nat
deriving DecidableEq, Repr

/-- `Color::from_rgb` -/
def Color.from_rgb (red green blue : Nat) : Color :=
  ⟨red, green, blue⟩

/-- `Color::red` accessor -/
def Color.red (c : Color) : Nat := c.c0

/-- `Color::green` accessor -/
def Color.green (c : Color) : Nat := c.c1

/-- `Color::blue` accessor -/
def Color.blue (c : Color) : Nat := c.c2

/-- u16 `saturating_mul`: the product clamped at 65535. -/
def satMul16 (a b : Nat) : Nat := min (a * b) 65535

/-- u8 `saturating_add`: the sum clamped at 255. -/
def satAdd8 (a b : Nat) : Nat := min (a + b) 255

/-- `Color::from_hsv` from src/colors.rs.  Inputs are u8 values (< 256).
The `as u8` casts of the source appear as `% 256`; the u16 `>> 8` shifts
appear as `>>> 8`.  Subtractions cannot underflow on the u8/u16 domain, so
Nat truncated subtraction coincides with the source arithmetic. -/
def Color.from_hsv (hue saturation value : Nat) : Color :=
  if saturation = 0 then
    -- color is greyscale
    Color.from_rgb value value value
  else
    -- make hue 0-5
    let region := hue / 43
    -- find remainder part, make it from 0-255
    let fpart := (hue % 43) * 6
    -- calculate temp vars, doing integer multiplication
    let f := fpart
    let v := value
    let s := saturation
    let p := ((v * (255 - s)) >>> 8) % 256
    let q := ((v * (255 - ((s * f) >>> 8))) >>> 8) % 256
    let t := ((v * (255 - ((s * (255 - f)) >>> 8))) >>> 8) % 256
    match region with
    | 0 => Color.from_rgb v t p
    | 1 => Color.from_rgb q v p
    | 2 => Color.from_rgb p v t
    | 3 => Color.from_rgb p q v
    | 4 => Color.from_rgb t p v
    | _ => Color.from_rgb v p q

/-- `Color::from_hsl` from src/colors.rs.  Inputs are u8 values (< 256).
`saturating_mul` on u16 is `satMul16`, `saturating_sub` on u16 is Nat
truncated subtraction, `saturating_add` on u8 is `satAdd8`, and each
`as u8` cast is `% 256`. -/
def Color.from_hsl (hue saturation lightness : Nat) : Color :=
  if saturation = 0 then
    -- color is greyscale
    Color.from_rgb lightness lightness lightness
  else
    -- make hue 0-5
    let region := hue / 43
    -- find remainder part, make it from 0-255
    let fpart := (hue % 43) * 6
    -- calculate temp vars, doing integer multiplication
    let f := fpart
    let l := lightness
    let s := saturation
    let chroma := if saturation < 128 then
        (satMul16 s l) >>> 7
      else
        (satMul16 s (255 - l)) >>> 7
    let m := (l - (chroma >>> 1)) % 256
    let c := satAdd8 (chroma % 256) m
    let x1 := satAdd8 (((satMul16 chroma f) >>> 8) % 256) m
    let x2 := satAdd8 (((satMul16 chroma (255 - f)) >>> 8) % 256) m
    match region with
    | 0 => Color.from_rgb c x1 m
    | 1 => Color.from_rgb x2 c m
    | 2 => Color.from_rgb m c x1
    | 3 => Color.from_rgb m x2 c
    | 4 => Color.from_rgb x1 m c
    | _ => Color.from_rgb c m x2

/-- The HSV conversion exactly as the specification words it for
saturation > 0: plain integer arithmetic, every division a floor division
by 256, channel ordering selected by the sector index. -/
def from_hsv_spec (hue saturation value : Nat) : Color :=
  let region := hue / 43
  let fpart := (hue % 43) * 6
  let p := value * (255 - saturation) / 256
  let q := value * (255 - saturation * fpart / 256) / 256
  let t := value * (255 - saturation * (255 - fpart) / 256) / 256
  match region with
  | 0 => Color.from_rgb value t p
  | 1 => Color.from_rgb q value p
  | 2 => Color.from_rgb p value t
  | 3 => Color.from_rgb p q value
  | 4 => Color.from_rgb t p value
  | _ => Color.from_rgb value p q

/-- The HSL conversion exactly as the specification words it for
saturation > 0: `c = chroma + m`, `x1 = (chroma*fpart >> 8) + m`,
`x2 = (chroma*(255-fpart) >> 8) + m`, all additions clamped at 255. -/
def from_hsl_spec (hue saturation lightness : Nat) : Color :=
  let region := hue / 43
  let fpart := (hue % 43) * 6
  let chroma := if saturation < 128 then
      (saturation * lightness) >>> 7
    else
      (saturation * (255 - lightness)) >>> 7
  let m := lightness - (chroma >>> 1)
  let c := min (chroma + m) 255
  let x1 := min ((chroma * fpart) >>> 8 + m) 255
  let x2 := min ((chroma * (255 - fpart)) >>> 8 + m) 255
  match region with
  | 0 => Color.from_rgb c x1 m
  | 1 => Color.from_rgb x2 c m
  | 2 => Color.from_rgb m c x1
  | 3 => Color.from_rgb m x2 c
  | 4 => Color.from_rgb x1 m c
  | _ => Color.from_rgb c m x2

/-- The HSL conversion as the specification words it, amended in one
place to match the code: the code truncates `chroma` to its low 8 bits
(the `chroma as u8` cast) before the saturating addition that produces
`c`, so `c = (chroma mod 256) + m` clamped at 255 rather than
`c = chroma + m` clamped at 255. -/
def from_hsl_amended (hue saturation lightness : Nat) : Color :=
  let region := hue / 43
  let fpart := (hue % 43) * 6
  let chroma := if saturation < 128 then
      (saturation * lightness) >>> 7
    else
      (saturation * (255 - lightness)) >>> 7
  let m := lightness - (chroma >>> 1)
  let c := min (chroma % 256 + m) 255
  let x1 := min ((chroma * fpart) >>> 8 + m) 255
  let x2 := min ((chroma * (255 - fpart)) >>> 8 + m) 255
  match region with
  | 0 => Color.from_rgb c x1 m
  | 1 => Color.from_rgb x2 c m
  | 2 => Color.from_rgb m c x1
  | 3 => Color.from_rgb m x2 c
  | 4 => Color.from_rgb x1 m c
  | _ => Color.from_rgb c m x2

/-- `u32::MAX` -/
def U32_MAX : Nat := 4294967295

/-- u32 `saturating_mul`: the product clamped at `u32::MAX`. -/
def satMul32 (a b : Nat) : Nat := min (a * b) U32_MAX

/-- `enum Brightness` from src/lib.rs. -/
inductive Brightness where
  | Full : Brightness
  | Off : Brightness
  | Percent : Nat → Brightness
  | Absolute : Nat → Brightness
deriving DecidableEq, Repr

/-- `Brightness::to_absolute` from src/lib.rs.  u32 values are Nats below
2^32; `saturating_mul` is `satMul32`, `cmp::min` is `min`. -/
def Brightness.to_absolute (b : Brightness) (max_brightness : Nat) : Nat :=
  match b with
  | .Full => max_brightness
  | .Off => 0
  | .Percent p => satMul32 max_brightness (min p 100) / 100
  | .Absolute a => min max_brightness a

/-- `Brightness::to_percent` from src/lib.rs.  The `Absolute` arm divides
by `max_brightness`; in Rust a division by zero panics, which is modelled
here as `Option.none`.  All normal returns are `Option.some`. -/
def Brightness.to_percent (b : Brightness) (max_brightness : Nat) : Option Nat :=
  match b with
  | .Full => some max_brightness
  | .Off => some 0
  | .Percent p => some (min p 100)
  | .Absolute a =>
      if max_brightness = 0 then none
      else some (satMul32 (min a max_brightness) 100 / max_brightness)

/-- One sysfs attribute file of an LED class device: its stored text and
whether opening it for writing succeeds.  A write failure models the
`OpenOptions::open` error of `sysfs_write_file` in src/lib.rs. -/
structure SysfsFile where
  contents : String
  writable : Bool
deriving DecidableEq, Repr

/-- One `SysfsLed` device directory, holding the three attribute files
that `require_device_files` in src/lib.rs demands: `brightness`,
`max_brightness` and `trigger`. -/
structure LedDevice where
  brightness : SysfsFile
  max_brightness : SysfsFile
  trigger : SysfsFile
deriving DecidableEq, Repr

/-- The error values of src/errors.rs that the modelled operations can
produce: an I/O error from opening a file, or a `ParseIntError` from
`str::parse::<u32>`. -/
inductive LedError where
  | io : LedError
  | parseInt : LedError
deriving DecidableEq, Repr

/-- ASCII whitespace, the characters `str::trim` strips from sysfs
attribute contents (kernel sysfs values are ASCII, a value plus a
trailing newline). -/
def isSpaceChar (c : Char) : Bool :=
  c == ' ' || c == '\t' || c == '\n' || c == '\r'

/-- `str::trim`: strip leading and trailing whitespace, modelled over
the character list of the string. -/
def strTrim (s : String) : String :=
  ⟨((s.data.dropWhile isSpaceChar).reverse.dropWhile isSpaceChar).reverse⟩

/-- ASCII decimal digit test. -/
def isDigitChar (c : Char) : Bool :=
  48 ≤ c.toNat && c.toNat ≤ 57

/-- Accumulate the value of a decimal digit string. -/
def charsToNat (cs : List Char) : Nat :=
  cs.foldl (fun acc c => acc * 10 + (c.toNat - 48)) 0

/-- `str::parse::<u32>`: a nonempty string of decimal digits whose value
fits in 32 bits; anything else is a `ParseIntError` (modelled as
`none`). -/
def parse_u32 (s : String) : Option Nat :=
  if s.data ≠ [] ∧ s.data.all isDigitChar then
    if charsToNat s.data < 2 ^ 32 then some (charsToNat s.data) else none
  else none

/-- The character of a decimal digit value. -/
def digitChar (n : Nat) : Char :=
  match n with
  | 0 => '0' | 1 => '1' | 2 => '2' | 3 => '3' | 4 => '4'
  | 5 => '5' | 6 => '6' | 7 => '7' | 8 => '8' | _ => '9'

/-- Digits of `n` in order, prepended to `acc`; `fuel` bounds the
recursion and is always enough when it starts at `n + 1`. -/
def natDigits : Nat → Nat → List Char → List Char
  | 0, _, acc => acc
  | fuel + 1, n, acc =>
      if n < 10 then digitChar n :: acc
      else natDigits fuel (n / 10) (digitChar (n % 10) :: acc)

/-- The decimal string of a Nat, as Rust `format!("{}", v)` renders a
u32. -/
def natToString (n : Nat) : String :=
  ⟨natDigits (n + 1) n []⟩

/-- Look up an attribute file of the device directory by name. -/
def LedDevice.getFile (d : LedDevice) : String → Option SysfsFile
  | "brightness" => some d.brightness
  | "max_brightness" => some d.max_brightness
  | "trigger" => some d.trigger
  | _ => none

/-- Replace an attribute file of the device directory by name. -/
def LedDevice.setFile (d : LedDevice) (name : String) (f : SysfsFile) : LedDevice :=
  if name = "brightness" then { d with brightness := f }
  else if name = "max_brightness" then { d with max_brightness := f }
  else if name = "trigger" then { d with trigger := f }
  else d

/-- `sysfs_read_file` from src/lib.rs: open the named file, read its
contents and trim surrounding whitespace.  A missing file is an I/O
error. -/
def sysfs_read_file (d : LedDevice) (name : String) : Except LedError String :=
  match d.getFile name with
  | none => .error .io
  | some f => .ok (strTrim f.contents)

/-- `sysfs_write_file` from src/lib.rs: open the named file for writing
(truncating) and replace its contents.  A missing or unwritable file is
an I/O error and leaves the device unchanged. -/
def sysfs_write_file (d : LedDevice) (name value : String) :
    LedDevice × Except LedError Unit :=
  match d.getFile name with
  | none => (d, .error .io)
  | some f =>
      if f.writable then
        (d.setFile name { f with contents := value }, .ok ())
      else
        (d, .error .io)

/-- `SysfsLed::max_brightness` from src/lib.rs: read the
`max_brightness` attribute and parse it as a u32; a parse failure
becomes a `ParseInt` error. -/
def max_brightness_of (d : LedDevice) : Except LedError Nat :=
  match sysfs_read_file d "max_brightness" with
  | .error e => .error e
  | .ok s =>
      match parse_u32 s with
      | some n => .ok n
      | none => .error .parseInt

/-- `Led::brightness` for `SysfsLed` from src/lib.rs: read and parse the
`brightness` attribute, wrapped as `Brightness::Absolute`. -/
def led_brightness (d : LedDevice) : Except LedError Brightness :=
  match sysfs_read_file d "brightness" with
  | .error e => .error e
  | .ok s =>
      match parse_u32 s with
      | some n => .ok (Brightness.Absolute n)
      | none => .error .parseInt

/-- `Led::set_brightness` for `SysfsLed` from src/lib.rs: read the
current `max_brightness`, resolve the requested brightness to an
absolute value with `Brightness::to_absolute`, and write its decimal
string to the `brightness` attribute. -/
def set_brightness (d : LedDevice) (b : Brightness) :
    LedDevice × Except LedError Unit :=
  match max_brightness_of d with
  | .error e => (d, .error e)
  | .ok m => sysfs_write_file d "brightness" (natToString (b.to_absolute m))

/-- `SysfsRgbLed` from src/lib.rs: three independent `SysfsLed`
channels. -/
structure RgbDevice where
  red : LedDevice
  green : LedDevice
  blue : LedDevice
deriving DecidableEq, Repr

/-- `Result::and` of Rust: keep the first error, otherwise the second
result.  Note that in Rust both sides are already evaluated before
`and` combines them. -/
def resultAnd (a b : Except LedError Unit) : Except LedError Unit :=
  match a with
  | .error e => .error e
  | .ok _ => b

/-- `TriggerNone for SysfsRgbLed` from src/triggers.rs:

  self.red.sysfs_write_file("trigger", "none")
      .and(self.green.sysfs_write_file("trigger", "none"))
      .and(self.blue.sysfs_write_file("trigger", "none"))

`Result::and` takes its argument by value, so each of the three writes
is evaluated before the results are combined; the combination keeps the
first error. -/
def rgb_none (d : RgbDevice) : RgbDevice × Except LedError Unit :=
  let r := sysfs_write_file d.red "trigger" "none"
  let g := sysfs_write_file d.green "trigger" "none"
  let b := sysfs_write_file d.blue "trigger" "none"
  (⟨r.1, g.1, b.1⟩, resultAnd (resultAnd r.2 g.2) b.2)

/-- `RgbLed::color` for `SysfsRgbLed` from src/lib.rs: read the three
channel brightness values (propagating any error), discard them, and
return `Color::from_rgb(0, 0, 0)`. -/
def rgb_color (d : RgbDevice) : Except LedError Color :=
  match led_brightness d.red with
  | .error e => .error e
  | .ok _ =>
      match led_brightness d.green with
      | .error e => .error e
      | .ok _ =>
          match led_brightness d.blue with
          | .error e => .error e
          | .ok _ => .ok (Color.from_rgb 0 0 0)

/-- Apply `set_brightness` for each requested value in turn, recording
the stored `brightness` attribute contents after each step.  This is the
shape of the `test_set_brightness` unit test in src/lib.rs. -/
def runBrightnessSeq (d : LedDevice) : List Brightness → List String
  | [] => []
  | b :: bs =>
      let d2 := (set_brightness d b).1
      d2.brightness.contents :: runBrightnessSeq d2 bs

/-- The device directory of the `test_set_brightness` unit test:
`brightness=0`, `max_brightness=128`, `trigger=[none]`, all writable. -/
def testDevice : LedDevice :=
  { brightness := { contents := "0", writable := true }
  , max_brightness := { contents := "128", writable := true }
  , trigger := { contents := "[none]", writable := true } }

/-- An RGB device on which the second (green) channel trigger write
fails: the green `trigger` file is not writable, while the red and blue
channels are fully writable. -/
def cexRgb : RgbDevice :=
  { red := { brightness := { contents := "0", writable := true }
           , max_brightness := { contents := "255", writable := true }
           , trigger := { contents := "heartbeat", writable := true } }
  , green := { brightness := { contents := "0", writable := true }
             , max_brightness := { contents := "255", writable := true }
             , trigger := { contents := "heartbeat", writable := false } }
  , blue := { brightness := { contents := "0", writable := true }
            , max_brightness := { contents := "255", writable := true }
            , trigger := { contents := "heartbeat", writable := true } } }

/-- An RGB device with three distinct, nonzero, parseable channel
brightness values. -/
def litRgb : RgbDevice :=
  { red := { brightness := { contents := "7", writable := true }
           , max_brightness := { contents := "255", writable := true }
           , trigger := { contents := "none", writable := true } }
  , green := { brightness := { contents := "250", writable := true }
             , max_brightness := { contents := "255", writable := true }
             , trigger := { contents := "none", writable := true } }
  , blue := { brightness := { contents := "13", writable := true }
            , max_brightness := { contents := "255", writable := true }
            , trigger := { contents := "none", writable := true } } }

/-- Clamping at 255 after the addition absorbs the difference between
the saturated 16-bit product (clamped at 65535, shifted, truncated to
u8) and the exact product shifted: both sides agree once the final
clamp is applied. -/
theorem clampMulAdd (prod m : Nat) :
    min (min prod 65535 / 256 % 256 + m) 255 = min (prod / 256 + m) 255 := by
  omega

/-- C10: for every brightness variant and every maximum,
`Brightness::to_absolute` returns a value that never exceeds the
maximum, including when the saturating multiplication of the `Percent`
arm saturates; hence the value `set_brightness` writes never exceeds
the reported `max_brightness`. -/
theorem to_absolute_le_max (b : Brightness) (max : Nat) :
    Brightness.to_absolute b max ≤ max := by
  cases b with
  | Full => exact le_refl max
  | Off => exact Nat.zero_le max
  | Percent p =>
      show satMul32 max (min p 100) / 100 ≤ max
      have h1 : satMul32 max (min p 100) ≤ max * 100 :=
        le_trans (min_le_left _ _) (Nat.mul_le_mul (le_refl max) (min_le_right p 100))
      calc satMul32 max (min p 100) / 100 ≤ max * 100 / 100 := Nat.div_le_div_right h1
        _ = max := by omega
  | Absolute a => exact min_le_left max a

/-- C5: with saturation 0, `from_hsv` returns the exact greyscale triple
of the value and `from_hsl` the exact greyscale triple of the lightness,
for every hue. -/
theorem saturation_zero_greyscale (hue value lightness : Nat) :
    Color.from_hsv hue 0 value = Color.from_rgb value value value ∧
    Color.from_hsl hue 0 lightness = Color.from_rgb lightness lightness lightness :=
  ⟨rfl, rfl⟩

/-- C2 counterexample: `to_absolute(Percent(150), max)` is not `max` for
every u32 `max`: at `max = 42949673` the saturating multiplication
clamps `max * 100` at `u32::MAX`, so the result is `42949672`. -/
theorem to_absolute_percent150_cex :
    Brightness.to_absolute (.Percent 150) 42949673 ≠ 42949673 ∧
    Brightness.to_absolute (.Percent 150) 42949673 = 42949672 := by
  decide

/-- C2 (amended): for u32 inputs, `to_absolute` maps `Off` to 0, `Full`
to `max`, `Absolute(a)` to `min(a, max)`, and `Percent(p)` to
`max * min(p,100) / 100` with saturating multiplication before the
division; `Percent(150)` equals `max` whenever `max * 100` does not
saturate (that is, for `max ≤ 42949672`). -/
theorem to_absolute_resolution (max a p : Nat)
    (hmax : max < 2 ^ 32) (ha : a < 2 ^ 32) (hp : p < 2 ^ 32) :
    Brightness.to_absolute .Off max = 0 ∧
    Brightness.to_absolute .Full max = max ∧
    (max * 100 ≤ U32_MAX → Brightness.to_absolute (.Percent 150) max = max) ∧
    Brightness.to_absolute (.Absolute a) max = min a max ∧
    Brightness.to_absolute (.Percent p) max = satMul32 max (min p 100) / 100 := by
  refine ⟨rfl, rfl, ?_, min_comm max a, rfl⟩
  intro hsat
  show satMul32 max (min 150 100) / 100 = max
  rw [show min (150:Nat) 100 = 100 from by norm_num]
  unfold satMul32
  rw [min_eq_left hsat]
  omega

/-- C2 witness: the amended resolution facts at `max = 128`, `a = 200`,
`p = 150`. -/
theorem to_absolute_resolution_witness :
    (128 : Nat) < 2 ^ 32 ∧
    (Brightness.to_absolute .Off 128 = 0 ∧
     Brightness.to_absolute .Full 128 = 128 ∧
     (128 * 100 ≤ U32_MAX → Brightness.to_absolute (.Percent 150) 128 = 128) ∧
     Brightness.to_absolute (.Absolute 200) 128 = min 200 128 ∧
     Brightness.to_absolute (.Percent 150) 128 = satMul32 128 (min 150 100) / 100) :=
  ⟨by norm_num, to_absolute_resolution 128 200 150 (by norm_num) (by norm_num) (by norm_num)⟩

/-- C6 counterexample: the `Absolute` arm of `to_percent` is not
`min(a,max) * 100 / max` for all u32 inputs: at `a = max = u32::MAX`
the saturating multiplication clamps `min(a,max) * 100` at `u32::MAX`,
so the code returns 1 where the claimed formula gives 100. -/
theorem to_percent_absolute_saturation_cex :
    Brightness.to_percent (.Absolute 4294967295) 4294967295 = some 1 ∧
    min 4294967295 4294967295 * 100 / 4294967295 = 100 := by
  decide

/-- C6 (amended): for u32 inputs with `max > 0`, `to_percent` maps
`Full` to `max` (the maximum value, not 100), `Off` to 0, `Percent(p)`
to `min(p,100)`, and `Absolute(a)` to
`saturating_mul(min(a,max), 100) / max`, which coincides with
`min(a,max) * 100 / max` whenever the multiplication does not
saturate. -/
theorem to_percent_resolution (max p a : Nat) (hpos : 0 < max)
    (hmax : max < 2 ^ 32) (ha : a < 2 ^ 32) (hp : p < 2 ^ 32) :
    Brightness.to_percent .Full max = some max ∧
    Brightness.to_percent .Off max = some 0 ∧
    Brightness.to_percent (.Percent p) max = some (min p 100) ∧
    Brightness.to_percent (.Absolute a) max = some (satMul32 (min a max) 100 / max) ∧
    (min a max * 100 ≤ U32_MAX →
      Brightness.to_percent (.Absolute a) max = some (min a max * 100 / max)) := by
  have hne : ¬ max = 0 := by omega
  refine ⟨rfl, rfl, rfl, ?_, ?_⟩
  · show (if max = 0 then none else some (satMul32 (min a max) 100 / max)) = _
    rw [if_neg hne]
  · intro hsat
    show (if max = 0 then none else some (satMul32 (min a max) 100 / max)) = _
    rw [if_neg hne]
    unfold satMul32
    rw [min_eq_left hsat]

/-- C6 witness: the amended resolution facts at `max = 128`, `p = 150`,
`a = 200`. -/
theorem to_percent_resolution_witness :
    (0 : Nat) < 128 ∧
    (Brightness.to_percent .Full 128 = some 128 ∧
     Brightness.to_percent .Off 128 = some 0 ∧
     Brightness.to_percent (.Percent 150) 128 = some (min 150 100) ∧
     Brightness.to_percent (.Absolute 200) 128 = some (satMul32 (min 200 128) 100 / 128) ∧
     (min 200 128 * 100 ≤ U32_MAX →
       Brightness.to_percent (.Absolute 200) 128 = some (min 200 128 * 100 / 128))) :=
  ⟨by norm_num, to_percent_resolution 128 150 200 (by norm_num) (by norm_num) (by norm_num) (by norm_num)⟩

/-- C7 counterexample: with `max = 0` the function does not signal an
error.  The `Absolute` arm divides by zero, which in Rust is a panic
(modelled as `none`, a crash rather than a signaled error), and the
`Full` arm simply returns 0 normally. -/
theorem to_percent_zero_max_cex :
    Brightness.to_percent (.Absolute 1) 0 = none ∧
    Brightness.to_percent .Full 0 = some 0 :=
  ⟨rfl, rfl⟩

/-- C7 (amended): `to_percent` is not guarded against `max = 0`: the
`Full`, `Off` and `Percent` arms return normally (0, 0, and
`min(p,100)`), while the `Absolute` arm performs an unguarded division
by `max` and panics (modelled as `none`). -/
theorem to_percent_zero_max_behavior (p a : Nat) :
    Brightness.to_percent .Full 0 = some 0 ∧
    Brightness.to_percent .Off 0 = some 0 ∧
    Brightness.to_percent (.Percent p) 0 = some (min p 100) ∧
    Brightness.to_percent (.Absolute a) 0 = none :=
  ⟨rfl, rfl, rfl, rfl⟩

/-- C1 counterexample: on a composite device whose green (second)
channel trigger write fails, the blue (third) channel write is still
attempted and takes effect — its trigger file changes from "heartbeat"
to "none" — while the green channel error is surfaced as the result.
`Result::and` evaluates its argument before combining, so the chain in
`TriggerNone for SysfsRgbLed` does not short-circuit evaluation. -/
theorem rgb_none_attempts_third_cex :
    (sysfs_write_file cexRgb.green "trigger" "none").2 = .error .io ∧
    cexRgb.blue.trigger.contents ≠ "none" ∧
    (rgb_none cexRgb).1.blue.trigger.contents = "none" ∧
    (rgb_none cexRgb).2 = .error .io :=
  ⟨rfl, by decide, rfl, rfl⟩

/-- C1 (amended): composite trigger-disable evaluates all three channel
writes unconditionally (each channel state is the state after its own
write), and the result keeps the first error: when the red write
succeeds and the green write fails, the green channel error is the
result of the operation, and the blue write has still been applied. -/
theorem rgb_none_eager_semantics (d : RgbDevice) (e : LedError)
    (h1 : (sysfs_write_file d.red "trigger" "none").2 = .ok ())
    (h2 : (sysfs_write_file d.green "trigger" "none").2 = .error e) :
    (rgb_none d).2 = .error e ∧
    (rgb_none d).1.red = (sysfs_write_file d.red "trigger" "none").1 ∧
    (rgb_none d).1.green = (sysfs_write_file d.green "trigger" "none").1 ∧
    (rgb_none d).1.blue = (sysfs_write_file d.blue "trigger" "none").1 := by
  refine ⟨?_, rfl, rfl, rfl⟩
  have hres : (rgb_none d).2 =
      resultAnd (resultAnd (sysfs_write_file d.red "trigger" "none").2
          (sysfs_write_file d.green "trigger" "none").2)
        (sysfs_write_file d.blue "trigger" "none").2 := rfl
  rw [hres, h1, h2]
  rfl

/-- C1 witness: the amended semantics at the concrete device `cexRgb`
whose green trigger file is unwritable. -/
theorem rgb_none_eager_semantics_witness :
    (rgb_none cexRgb).2 = .error .io ∧
    (rgb_none cexRgb).1.red = (sysfs_write_file cexRgb.red "trigger" "none").1 ∧
    (rgb_none cexRgb).1.green = (sysfs_write_file cexRgb.green "trigger" "none").1 ∧
    (rgb_none cexRgb).1.blue = (sysfs_write_file cexRgb.blue "trigger" "none").1 :=
  rgb_none_eager_semantics cexRgb .io rfl rfl

/-- C8: `set_brightness` reads the current `max_brightness`, resolves
the requested brightness with `to_absolute`, and writes its decimal
string to the `brightness` attribute; and over the test directory with
`brightness=0`, `max_brightness=128`, the sequence `Full, Percent(50),
Percent(150), Absolute(0), Absolute(72), Absolute(129), Off` leaves the
stored attribute at "128", "64", "128", "0", "72", "128", "0". -/
theorem set_brightness_resolves_and_writes (d : LedDevice) (b : Brightness) (m : Nat)
    (h1 : max_brightness_of d = .ok m)
    (h2 : d.brightness.writable = true) :
    set_brightness d b =
      ({ d with brightness := { d.brightness with
          contents := natToString (b.to_absolute m) } }, .ok ()) ∧
    runBrightnessSeq testDevice
      [.Full, .Percent 50, .Percent 150, .Absolute 0, .Absolute 72, .Absolute 129, .Off] =
      ["128", "64", "128", "0", "72", "128", "0"] := by
  constructor
  · obtain ⟨⟨bc, bw⟩, mf, tf⟩ := d
    have hb : bw = true := h2
    subst hb
    unfold set_brightness
    rw [h1]
    rfl
  · decide

/-- C8 witness: the write behavior at the test device with `Full` (the
stored maximum parses to 128), plus the concrete sequence. -/
theorem set_brightness_resolves_and_writes_witness :
    (set_brightness testDevice .Full =
      ({ testDevice with brightness := { testDevice.brightness with
          contents := natToString (Brightness.to_absolute .Full 128) } }, .ok ()) ∧
     runBrightnessSeq testDevice
      [.Full, .Percent 50, .Percent 150, .Absolute 0, .Absolute 72, .Absolute 129, .Off] =
      ["128", "64", "128", "0", "72", "128", "0"]) :=
  set_brightness_resolves_and_writes testDevice .Full 128 rfl rfl

/-- C9: whenever the three channel brightness reads succeed, the
composite `color()` returns black, `Color::from_rgb(0,0,0)`, regardless
of the values read. -/
theorem rgb_color_always_black (d : RgbDevice) (r g b : Brightness)
    (hr : led_brightness d.red = .ok r)
    (hg : led_brightness d.green = .ok g)
    (hb : led_brightness d.blue = .ok b) :
    rgb_color d = .ok (Color.from_rgb 0 0 0) := by
  unfold rgb_color
  rw [hr, hg, hb]

/-- C9 witness: the device `litRgb` stores the distinct nonzero channel
brightness values 7, 250 and 13, and `color()` still returns black. -/
theorem rgb_color_always_black_witness :
    rgb_color litRgb = .ok (Color.from_rgb 0 0 0) :=
  rgb_color_always_black litRgb (.Absolute 7) (.Absolute 250) (.Absolute 13) rfl rfl rfl

/-- C3: for u8 inputs with saturation > 0, `from_hsv` computes exactly
the sector decomposition and fixed-point formulas of the specification:
`region = hue / 43`, `fpart = (hue mod 43) * 6`,
`p = value*(255-saturation)/256`,
`q = value*(255 - saturation*fpart/256)/256`,
`t = value*(255 - saturation*(255-fpart)/256)/256` (floor divisions),
with the channel ordering selected by the region. -/
theorem from_hsv_matches_spec (h s v : Nat)
    (hh : h < 256) (hs : s < 256) (hv : v < 256) (hpos : 0 < s) :
    Color.from_hsv h s v = from_hsv_spec h s v := by
  have hb : ∀ x : Nat, x ≤ 255 → v * x / 256 % 256 = v * x / 256 := by
    intro x hx
    apply Nat.mod_eq_of_lt
    apply Nat.div_lt_of_lt_mul
    calc v * x ≤ 255 * 255 := Nat.mul_le_mul (by omega) hx
      _ < 256 * 256 := by norm_num
  unfold Color.from_hsv from_hsv_spec
  rw [if_neg (by omega : ¬ s = 0)]
  simp only [Nat.shiftRight_eq_div_pow, show (2 : Nat) ^ 8 = 256 from by norm_num]
  have e1 := hb (255 - s) (by omega)
  have e2 := hb (255 - s * (h % 43 * 6) / 256) (by omega)
  have e3 := hb (255 - s * (255 - h % 43 * 6) / 256) (by omega)
  simp only [e1, e2, e3]

/-- C3 witness: the formula agreement at hue 0, full saturation, full
value, giving pure red. -/
theorem from_hsv_matches_spec_witness :
    (0 : Nat) < 255 ∧
    Color.from_hsv 0 255 255 = from_hsv_spec 0 255 255 ∧
    Color.from_hsv 0 255 255 = Color.from_rgb 255 0 0 :=
  ⟨by norm_num,
   from_hsv_matches_spec 0 255 255 (by norm_num) (by norm_num) (by norm_num) (by norm_num),
   by decide⟩

/-- C4 counterexample: at hue 0, saturation 255, lightness 0, chroma is
508, so the code (which truncates chroma to u8, giving 252, before the
saturating addition) returns the triple (252, 0, 0), while the claimed
formula `c = chroma + m` clamped at 255 gives (255, 0, 0). -/
theorem from_hsl_chroma_truncation_cex :
    Color.from_hsl 0 255 0 ≠ from_hsl_spec 0 255 0 ∧
    Color.from_hsl 0 255 0 = Color.from_rgb 252 0 0 ∧
    from_hsl_spec 0 255 0 = Color.from_rgb 255 0 0 := by
  decide

/-- C4 (amended): for u8 inputs with saturation > 0, `from_hsl` computes
the chroma branch, `m = lightness - chroma/2` (saturating), and the
clamped channel values of the specification, except that chroma is
truncated to its low 8 bits before the saturating addition producing
`c`: `c = (chroma mod 256) + m` clamped at 255.  The `x1`, `x2` and
ordering formulas hold as claimed. -/
theorem from_hsl_matches_amended_spec (h s l : Nat)
    (hh : h < 256) (hs : s < 256) (hl : l < 256) (hpos : 0 < s) :
    Color.from_hsl h s l = from_hsl_amended h s l := by
  have hm1 : min (s * l) 65535 = s * l :=
    min_eq_left (le_trans (Nat.mul_le_mul (by omega : s ≤ 255) (by omega : l ≤ 255)) (by norm_num))
  have hm2 : min (s * (255 - l)) 65535 = s * (255 - l) :=
    min_eq_left (le_trans (Nat.mul_le_mul (by omega : s ≤ 255) (by omega : 255 - l ≤ 255)) (by norm_num))
  have hmodm : ∀ z : Nat, (l - z) % 256 = l - z := fun z => Nat.mod_eq_of_lt (by omega)
  unfold Color.from_hsl from_hsl_amended
  rw [if_neg (by omega : ¬ s = 0)]
  simp only [satMul16, satAdd8, Nat.shiftRight_eq_div_pow,
    show (2 : Nat) ^ 1 = 2 from by norm_num,
    show (2 : Nat) ^ 7 = 128 from by norm_num,
    show (2 : Nat) ^ 8 = 256 from by norm_num,
    hm1, hm2, hmodm, clampMulAdd]

/-- C4 witness: the amended formula agreement at hue 21, full
saturation, lightness 127, reproducing the unit-test color
(255, 125, 0). -/
theorem from_hsl_matches_amended_spec_witness :
    (0 : Nat) < 255 ∧
    Color.from_hsl 21 255 127 = from_hsl_amended 21 255 127 ∧
    Color.from_hsl 21 255 127 = Color.from_rgb 255 125 0 :=
  ⟨by norm_num,
   from_hsl_matches_amended_spec 21 255 127 (by norm_num) (by norm_num) (by norm_num) (by norm_num),
   by decide⟩

/-- Cross-check of the embedding against the `test_hsv_to_rgb` unit
test vectors of src/colors.rs. -/
theorem from_hsv_matches_unit_tests :
    Color.from_hsv 0 255 255 = Color.from_rgb 255 0 0 ∧
    Color.from_hsv 43 255 255 = Color.from_rgb 254 255 0 ∧
    Color.from_hsv 129 255 255 = Color.from_rgb 0 254 255 ∧
    Color.from_hsv 215 255 128 = Color.from_rgb 128 0 127 ∧
    Color.from_hsv 128 255 128 = Color.from_rgb 0 128 126 := by
  decide

/-- Cross-check of the embedding against the `test_hsl_to_rgb` unit
test vectors of src/colors.rs. -/
theorem from_hsl_matches_unit_tests :
    Color.from_hsl 21 255 127 = Color.from_rgb 255 125 0 ∧
    Color.from_hsl 43 255 127 = Color.from_rgb 254 255 0 ∧
    Color.from_hsl 128 127 127 = Color.from_rgb 64 190 188 ∧
    Color.from_hsl 193 127 127 = Color.from_rgb 126 64 190 := by
  decide

end RustSysfsLed
